import Mathlib

/-!
Shallow embedding of the 2D sketch geometry kernel of the repository
(`ansys.geometry.core`): the `BaseShape` reference-frame class
(`shapes/base.py`), the `CircleShape` primitive (`shapes/circle.py`),
the `Triangle` sketch face (`sketch/triangle.py`), and the `Sketch`
aggregate together with its `Segment` edge, which are exercised by
`tests/test_sketch.py` but whose sources are not present; those are
modelled from the specification and carry doc comments saying so.

Numeric conventions: scalar parameters and coordinates are embedded as
exact rationals `ℚ` (every Python float denotes a rational, and all the
validation checks in the source are order/equality comparisons, which
are exact here); the closed-form metrics involving `π` and trigonometric
sampling land in `ℝ`.  Python exceptions are embedded as an error type
`PyError`, returned through `Except`.
-/

/-- Errors raised by the kernel, one constructor per distinct failure the
source can raise.  `invalidParameter` stands for the
`ValueError("Radius must be a real positive value.")` family (the spec's
`InvalidParameterError`); `degenerateGeometry` for the
`ValueError("Reference vectors must be linearly independent.")` and
`ValueError("Parameters 'start' and 'end' have the same values...")`
family (the spec's `DegenerateGeometryError`); `nameError` for a lookup
of an unbound Python name; `raiseNonException` for executing `raise v`
with `v` not an exception instance (Python turns this into a `TypeError`
at the raise site). -/
inductive PyError where
  | invalidParameter : PyError
  | degenerateGeometry : PyError
  | nameError (name : String) : PyError
  | raiseNonException : PyError
  deriving DecidableEq, Repr

/-- 3D vectors with exact rational coordinates, embedding `Vector3D` /
`UnitVector3D` (the source never checks unit length, so no normalization
is modelled). -/
structure Vec3 where
  x : ℚ
  y : ℚ
  z : ℚ
  deriving DecidableEq, Repr

namespace Vec3

/-- `Vector3D([0, 0, 0])`. -/
def zero : Vec3 := ⟨0, 0, 0⟩

/-- `Vector3D.cross`, the usual cross product. -/
def cross (a b : Vec3) : Vec3 :=
  ⟨a.y * b.z - a.z * b.y, a.z * b.x - a.x * b.z, a.x * b.y - a.y * b.x⟩

end Vec3

/-- 3D points (`Point3D`) with exact rational coordinates. -/
structure Point3 where
  x : ℚ
  y : ℚ
  z : ℚ
  deriving DecidableEq, Repr

/-- `BaseShape` (`shapes/base.py`): stored private fields after a
successful `__init__`. -/
structure BaseShape where
  _origin : Point3
  _i : Vec3
  _j : Vec3
  _k : Vec3
  _is_closed : Bool
  deriving DecidableEq, Repr

namespace BaseShape

/-- `BaseShape.__init__`: raises `ValueError` when
`dir_1.cross(dir_2) == Vector3D([0, 0, 0])`, otherwise stores
`_i = dir_1`, `_j = dir_2`, `_k = i.cross(_j)`, `_origin = origin`,
`_is_closed = is_closed`. -/
def init (origin : Point3) (dir_1 dir_2 : Vec3) (is_closed : Bool) :
    Except PyError BaseShape :=
  if Vec3.cross dir_1 dir_2 = Vec3.zero then
    .error .degenerateGeometry
  else
    .ok { _origin := origin, _i := dir_1, _j := dir_2,
          _k := Vec3.cross dir_1 dir_2, _is_closed := is_closed }

/-- Property `i`. -/
def i (s : BaseShape) : Vec3 := s._i

/-- Property `j`. -/
def j (s : BaseShape) : Vec3 := s._j

/-- Property `k`. -/
def k (s : BaseShape) : Vec3 := s._k

/-- Property `origin`: the source body is `return origin`, and the bare
name `origin` is bound neither in the property scope (whose only
parameter is `self`) nor at module level of `shapes/base.py`, so every
access raises `NameError("origin")`; the stored point sits untouched in
`self._origin`. -/
def origin (_s : BaseShape) : Except PyError Point3 :=
  .error (.nameError "origin")

/-- Property `is_closed`: the source body is `raise self._is_closed`
(not `return`), and raising a `bool` raises at the raise site instead of
producing a value, so every access fails. -/
def is_closed (_s : BaseShape) : Except PyError Bool :=
  .error .raiseNonException

end BaseShape

/-- Default `dir_1` of the source signatures, `UnitVector3D([1, 0, 0])`. -/
def e1 : Vec3 := ⟨1, 0, 0⟩

/-- Default `dir_2` of the source signatures, `UnitVector3D([0, 1, 0])`. -/
def e2 : Vec3 := ⟨0, 1, 0⟩

/-- Default origin `Point3D([0, 0, 0])` of `CircleShape.from_radius`. -/
def p0 : Point3 := ⟨0, 0, 0⟩

/-- `CircleShape` (`shapes/circle.py`): a `BaseShape` plus the stored
`_radius`. -/
structure CircleShape where
  base : BaseShape
  _radius : ℚ
  deriving DecidableEq, Repr

namespace CircleShape

/-- `CircleShape.__init__`: calls `super().__init__(origin, dir_1, dir_2,
is_closed=True)` and then stores `self._radius = radius`.  No check at
all is performed on `radius` here. -/
def init (radius : ℚ) (origin : Point3) (dir_1 dir_2 : Vec3) :
    Except PyError CircleShape :=
  match BaseShape.init origin dir_1 dir_2 true with
  | .error e => .error e
  | .ok b => .ok { base := b, _radius := radius }

/-- `CircleShape.from_radius`: raises `ValueError` when `radius <= 0`,
otherwise delegates to the constructor. -/
def from_radius (radius : ℚ) (origin : Point3 := p0)
    (dir_1 : Vec3 := e1) (dir_2 : Vec3 := e2) :
    Except PyError CircleShape :=
  if radius ≤ 0 then .error .invalidParameter
  else CircleShape.init radius origin dir_1 dir_2

/-- Property `radius`. -/
def radius (c : CircleShape) : ℚ := c._radius

/-- Property `r`. -/
def r (c : CircleShape) : ℚ := c.radius

/-- Property `perimeter`: `2 * np.pi * self.r`, read in exact real
arithmetic. -/
noncomputable def perimeter (c : CircleShape) : ℝ :=
  2 * Real.pi * (c.r : ℝ)

/-- Property `area`: `np.pi * self.r ** 2`, read in exact real
arithmetic. -/
noncomputable def area (c : CircleShape) : ℝ :=
  Real.pi * (c.r : ℝ) ^ 2

end CircleShape

/-- `np.linspace(a, b, n)`: `n` evenly spaced samples from `a` to `b`,
both endpoints included (`[a]` when `n = 1`, `[]` when `n = 0`). -/
noncomputable def linspace (a b : ℝ) (n : ℕ) : List ℝ :=
  if n = 1 then [a]
  else (List.range n).map (fun t : ℕ => a + (b - a) * (t : ℝ) / ((n : ℝ) - 1))

/-- `CircleShape.local_points`: builds `theta = np.linspace(0, 2π,
num_points)`, then `x_local = r*cos(theta)`, `y_local = r*sin(theta)`,
`z_local = np.zeros(num_points)`, and returns the three coordinate
arrays as the list `[x_local, y_local, z_local]` (not a list of
`num_points` points, despite its `list[Point3D]` annotation). -/
noncomputable def CircleShape.local_points (c : CircleShape)
    (num_points : ℕ := 100) : List (List ℝ) :=
  let theta := linspace 0 (2 * Real.pi) num_points
  [theta.map (fun t => (c.r : ℝ) * Real.cos t),
   theta.map (fun t => (c.r : ℝ) * Real.sin t),
   List.replicate num_points 0]

/-- 2D points (`Point2D`) with exact rational coordinates. -/
structure Point2 where
  x : ℚ
  y : ℚ
  deriving DecidableEq, Repr

/-- `ZERO_POINT2D`, the origin `Point2D([0, 0])`. -/
def zeroPoint2 : Point2 := ⟨0, 0⟩

/-- A `Segment` sketch edge: its stored start and end points. -/
structure Segment where
  start : Point2
  end_ : Point2
  deriving DecidableEq, Repr

namespace Segment

/-- Modelled from the spec: the `Segment` constructor
(`sketch/segment.py`, absent from the sources; only its tests are
present).  "Segment(start, end): fails with `DegenerateGeometryError` if
start == end", matching the test expecting `ValueError("Parameters
'start' and 'end' have the same values. No segment can be created.")`;
otherwise the two points are stored. -/
def create (start stop : Point2) : Except PyError Segment :=
  if start = stop then .error .degenerateGeometry
  else .ok ⟨start, stop⟩

end Segment

/-- `Triangle` (`sketch/triangle.py`): the three stored vertices and the
`_edges` list built by the constructor. -/
structure Triangle where
  _point1 : Point2
  _point2 : Point2
  _point3 : Point2
  _edges : List Segment
  deriving DecidableEq, Repr

/-- `Triangle.__init__`: after the (here vacuous) `check_type` calls it
stores the three vertices and appends `Segment(point1, point2)`,
`Segment(point2, point3)`, `Segment(point3, point1)` to `_edges`; each
`Segment` call can raise, aborting the construction. -/
def Triangle.init (point1 point2 point3 : Point2) :
    Except PyError Triangle :=
  match Segment.create point1 point2 with
  | .error e => .error e
  | .ok s1 =>
    match Segment.create point2 point3 with
    | .error e => .error e
    | .ok s2 =>
      match Segment.create point3 point1 with
      | .error e => .error e
      | .ok s3 => .ok ⟨point1, point2, point3, [s1, s2, s3]⟩

/-- A sketch entity: an edge or a face, with the optional tag attached
at append time.  Kept in one list so that the insertion order across
edges and faces is part of the model. -/
inductive SEntity where
  | edge (s : Segment) (tag : Option String) : SEntity
  | face (t : Triangle) (tag : Option String) : SEntity
  deriving DecidableEq, Repr

namespace SEntity

/-- The tag an entity was appended under. -/
def tag : SEntity → Option String
  | .edge _ t => t
  | .face _ t => t

end SEntity

/-- Modelled from the spec: the `Sketch` aggregate
(`sketch/sketch.py`, absent from the sources; only its tests are
present).  "owns an ordered sequence of edges and an ordered sequence of
faces"; insertion order is preserved and, for tag lookup, edges and
faces share one order, so the model keeps a single ordered entity
list. -/
structure Sketch where
  entities : List SEntity
  deriving DecidableEq, Repr

namespace Sketch

/-- `Sketch()`: a fresh sketch with no entities. -/
def empty : Sketch := ⟨[]⟩

/-- The ordered edge list `sketch.edges`. -/
def edges (s : Sketch) : List Segment :=
  s.entities.filterMap (fun e => match e with
    | .edge sg _ => some sg
    | .face _ _ => none)

/-- The ordered face list `sketch.faces`. -/
def faces (s : Sketch) : List Triangle :=
  s.entities.filterMap (fun e => match e with
    | .edge _ _ => none
    | .face t _ => some t)

/-- Modelled from the spec: the "current point" used by chained edge
construction — "default origin, or the end point of the previously
appended edge". -/
def currentPoint (s : Sketch) : Point2 :=
  match s.edges.getLast? with
  | some sg => sg.end_
  | none => zeroPoint2

/-- Modelled from the spec: `segment(start, end, tag?)` — "appends a
Segment edge; fails if start == end", and "append is atomic:
validate-then-append", so a raised error leaves the sketch exactly as it
was (the error carries the post-raise sketch state). -/
def segment (s : Sketch) (start stop : Point2) (tag : Option String) :
    Except (PyError × Sketch) Sketch :=
  match Segment.create start stop with
  | .error e => .error (e, s)
  | .ok sg => .ok ⟨s.entities ++ [.edge sg tag]⟩

/-- Modelled from the spec: `segment_to_point(end, tag?)` — "appends a
Segment from the sketch's current point (default origin, or the end
point of the previously appended edge) to `end`". -/
def segment_to_point (s : Sketch) (stop : Point2) (tag : Option String) :
    Except (PyError × Sketch) Sketch :=
  s.segment s.currentPoint stop tag

/-- Modelled from the spec: `triangle(p1, p2, p3, tag?)` — "append the
corresponding closed Face", validate-then-append, using the
`Triangle` constructor from `sketch/triangle.py`. -/
def triangle (s : Sketch) (p1 p2 p3 : Point2) (tag : Option String) :
    Except (PyError × Sketch) Sketch :=
  match Triangle.init p1 p2 p3 with
  | .error e => .error (e, s)
  | .ok t => .ok ⟨s.entities ++ [.face t tag]⟩

/-- Modelled from the spec: `get(tag)` — "returns, in insertion order,
every edge or face (mixed) whose tag equals the argument; empty sequence
if no match (not an error)". -/
def get (s : Sketch) (tag : String) : List SEntity :=
  s.entities.filter (fun e => e.tag = some tag)

end Sketch

/-! ### Helper lemmas -/

/-- The cross product of the two default directions. -/
theorem Vec3.cross_e1_e2 : Vec3.cross e1 e2 = ⟨0, 0, 1⟩ := by
  simp [Vec3.cross, e1, e2]

/-- The default directions pass the linear-independence check. -/
theorem Vec3.cross_e1_e2_ne_zero : Vec3.cross e1 e2 ≠ Vec3.zero := by
  rw [Vec3.cross_e1_e2]
  simp [Vec3.zero, Vec3.mk.injEq]

/-- `BaseShape.__init__` succeeds, with the stored fields, exactly when
the cross-product check passes. -/
theorem BaseShape.init_eq_ok (o : Point3) (d1 d2 : Vec3) (cl : Bool)
    (h : Vec3.cross d1 d2 ≠ Vec3.zero) :
    BaseShape.init o d1 d2 cl = .ok ⟨o, d1, d2, Vec3.cross d1 d2, cl⟩ := by
  unfold BaseShape.init
  rw [if_neg h]

/-- `CircleShape.__init__` succeeds for any radius whenever the frame
check passes. -/
theorem CircleShape.ctor_eq_ok (r : ℚ) (o : Point3) (d1 d2 : Vec3)
    (h : Vec3.cross d1 d2 ≠ Vec3.zero) :
    CircleShape.init r o d1 d2 =
      .ok ⟨⟨o, d1, d2, Vec3.cross d1 d2, true⟩, r⟩ := by
  unfold CircleShape.init
  rw [BaseShape.init_eq_ok o d1 d2 true h]

/-- A successful `BaseShape.__init__` stored exactly its arguments and
the cross product of its directions. -/
theorem BaseShape.init_ok {o : Point3} {d1 d2 : Vec3} {cl : Bool}
    {s : BaseShape} (h : BaseShape.init o d1 d2 cl = .ok s) :
    s = ⟨o, d1, d2, Vec3.cross d1 d2, cl⟩ := by
  unfold BaseShape.init at h
  split at h
  · simp at h
  · simp only [Except.ok.injEq] at h
    exact h.symm

/-- A successful `CircleShape.__init__` stored exactly its arguments. -/
theorem CircleShape.ctor_ok {r : ℚ} {o : Point3} {d1 d2 : Vec3}
    {c : CircleShape} (h : CircleShape.init r o d1 d2 = .ok c) :
    c = ⟨⟨o, d1, d2, Vec3.cross d1 d2, true⟩, r⟩ := by
  unfold CircleShape.init at h
  cases hb : BaseShape.init o d1 d2 true with
  | error e => rw [hb] at h; simp at h
  | ok b =>
    rw [hb] at h
    simp only [Except.ok.injEq] at h
    rw [← h, BaseShape.init_ok hb]

/-- `from_radius` succeeding means the constructor succeeded on the same
arguments. -/
theorem CircleShape.from_radius_ok {r : ℚ} {o : Point3} {d1 d2 : Vec3}
    {c : CircleShape} (h : CircleShape.from_radius r o d1 d2 = .ok c) :
    CircleShape.init r o d1 d2 = .ok c := by
  unfold CircleShape.from_radius at h
  split at h
  · simp at h
  · exact h

/-! ### C1 -/

/-- C1: every circle constructed with radius `r > 0` (through
`from_radius` or the direct constructor) has `area = π·r²` and
`perimeter = 2π·r` — exactly, in the real-number reading of the
formulas, hence in particular within the stated `1e-8` tolerance. -/
theorem circle_area_perimeter (r : ℚ) (o : Point3) (d1 d2 : Vec3)
    (c : CircleShape) (_hr : 0 < r)
    (hc : CircleShape.from_radius r o d1 d2 = .ok c ∨
          CircleShape.init r o d1 d2 = .ok c) :
    c.area = Real.pi * (r : ℝ) ^ 2 ∧
      c.perimeter = 2 * Real.pi * (r : ℝ) := by
  have hinit : CircleShape.init r o d1 d2 = .ok c := by
    cases hc with
    | inl h => exact CircleShape.from_radius_ok h
    | inr h => exact h
  rw [CircleShape.ctor_ok hinit]
  constructor
  · simp [CircleShape.area, CircleShape.r, CircleShape.radius]
  · simp [CircleShape.perimeter, CircleShape.r, CircleShape.radius]

/-- Witness for C1 at radius `2` with the default frame. -/
theorem circle_area_perimeter_witness :
    (0 : ℚ) < 2 ∧
      ((⟨⟨p0, e1, e2, Vec3.cross e1 e2, true⟩, 2⟩ : CircleShape).area =
          Real.pi * ((2 : ℚ) : ℝ) ^ 2 ∧
        (⟨⟨p0, e1, e2, Vec3.cross e1 e2, true⟩, 2⟩ : CircleShape).perimeter =
          2 * Real.pi * ((2 : ℚ) : ℝ)) :=
  ⟨by norm_num,
    circle_area_perimeter 2 p0 e1 e2 _ (by norm_num)
      (.inr (CircleShape.ctor_eq_ok 2 p0 e1 e2 Vec3.cross_e1_e2_ne_zero))⟩

/-! ### C2 -/

/-- C2 counterexample: constructing a circle through the direct
constructor with the non-positive radius `-1` (and the default frame)
succeeds, so it is not the case that every way of constructing a circle
rejects `radius ≤ 0`. -/
theorem circle_init_accepts_nonpositive_radius :
    CircleShape.init (-1) p0 e1 e2 =
      .ok ⟨⟨p0, e1, e2, Vec3.cross e1 e2, true⟩, -1⟩ :=
  CircleShape.ctor_eq_ok (-1) p0 e1 e2 Vec3.cross_e1_e2_ne_zero

/-- C2 amended: `from_radius` fails with `InvalidParameterError` exactly
when `radius ≤ 0` and otherwise delegates to the constructor (so it
never fails a radius check for `radius > 0`); the direct constructor
performs no radius check at all and, whenever the frame directions are
independent, succeeds for every radius, non-positive ones included. -/
theorem circle_radius_validation (r : ℚ) (o : Point3) (d1 d2 : Vec3) :
    (r ≤ 0 → CircleShape.from_radius r o d1 d2 = .error .invalidParameter) ∧
    (0 < r → CircleShape.from_radius r o d1 d2 = CircleShape.init r o d1 d2) ∧
    (Vec3.cross d1 d2 ≠ Vec3.zero →
      CircleShape.init r o d1 d2 =
        .ok ⟨⟨o, d1, d2, Vec3.cross d1 d2, true⟩, r⟩) := by
  refine ⟨fun hle => ?_, fun hpos => ?_, fun hcr => ?_⟩
  · unfold CircleShape.from_radius
    rw [if_pos hle]
  · unfold CircleShape.from_radius
    rw [if_neg (not_le.mpr hpos)]
  · exact CircleShape.ctor_eq_ok r o d1 d2 hcr

/-- Witness for C2's amended claim: radius `-1` is rejected by
`from_radius`, radius `3` passes its check, and the direct constructor
accepts radius `-1` outright. -/
theorem circle_radius_validation_witness :
    CircleShape.from_radius (-1) p0 e1 e2 = .error .invalidParameter ∧
    CircleShape.from_radius 3 p0 e1 e2 = CircleShape.init 3 p0 e1 e2 ∧
    CircleShape.init (-1) p0 e1 e2 =
      .ok ⟨⟨p0, e1, e2, Vec3.cross e1 e2, true⟩, -1⟩ :=
  ⟨(circle_radius_validation (-1) p0 e1 e2).1 (by norm_num),
   (circle_radius_validation 3 p0 e1 e2).2.1 (by norm_num),
   (circle_radius_validation (-1) p0 e1 e2).2.2 Vec3.cross_e1_e2_ne_zero⟩

/-! ### C3 -/

/-- C3: contrary to the claim, querying `is_closed` never returns a
boolean: the property body is `raise self._is_closed`, so on the circle
built by `from_radius(1)` (default frame) the access fails — even though
the constructor stored `_is_closed = True` as the claim expects. -/
theorem is_closed_raises_on_circle :
    CircleShape.from_radius 1 p0 e1 e2 =
      .ok ⟨⟨p0, e1, e2, Vec3.cross e1 e2, true⟩, 1⟩ ∧
    BaseShape.is_closed ⟨p0, e1, e2, Vec3.cross e1 e2, true⟩ =
      .error .raiseNonException ∧
    BaseShape._is_closed ⟨p0, e1, e2, Vec3.cross e1 e2, true⟩ = true := by
  refine ⟨?_, rfl, rfl⟩
  unfold CircleShape.from_radius
  rw [if_neg (by norm_num),
    CircleShape.ctor_eq_ok 1 p0 e1 e2 Vec3.cross_e1_e2_ne_zero]

/-! ### C4 -/

/-- Every `linspace` call yields exactly `n` samples. -/
theorem linspace_length (a b : ℝ) (n : ℕ) : (linspace a b n).length = n := by
  unfold linspace
  split
  · simp_all
  · rw [List.length_map, List.length_range]

/-- C4: contrary to the claim, `local_points(n)` does not return `n`
(x, y, z) samples: for every circle and every requested count `n` it
returns a list of exactly `3` coordinate rows (`x`-row, `y`-row,
`z`-row), each row holding the `n` per-axis sample values. -/
theorem circle_local_points_rows (c : CircleShape) (n : ℕ) :
    (c.local_points n).length = 3 ∧
    (c.local_points n).map List.length = [n, n, n] := by
  constructor <;> simp [CircleShape.local_points, linspace_length]

/-! ### C5 -/

/-- C5: `BaseShape` construction fails with the degenerate-geometry
error exactly when `dir_1 × dir_2` is the zero vector (the source's
linear-dependence check); otherwise it succeeds and stores
`_k = dir_1 × dir_2` as the third basis vector (together with the two
directions and the origin). -/
theorem base_shape_frame_check (o : Point3) (d1 d2 : Vec3) (cl : Bool) :
    (Vec3.cross d1 d2 = Vec3.zero →
      BaseShape.init o d1 d2 cl = .error .degenerateGeometry) ∧
    (Vec3.cross d1 d2 ≠ Vec3.zero →
      BaseShape.init o d1 d2 cl =
        .ok ⟨o, d1, d2, Vec3.cross d1 d2, cl⟩) := by
  refine ⟨fun hz => ?_, fun hnz => BaseShape.init_eq_ok o d1 d2 cl hnz⟩
  unfold BaseShape.init
  rw [if_pos hz]

/-- Witness for C5: parallel directions (`e1`, `e1`) are rejected, the
default frame (`e1`, `e2`) is accepted with `_k = e1 × e2`. -/
theorem base_shape_frame_check_witness :
    BaseShape.init p0 e1 e1 true = .error .degenerateGeometry ∧
    BaseShape.init p0 e1 e2 true =
      .ok ⟨p0, e1, e2, Vec3.cross e1 e2, true⟩ :=
  ⟨(base_shape_frame_check p0 e1 e1 true).1
      (by simp [Vec3.cross, e1, Vec3.zero]),
   (base_shape_frame_check p0 e1 e2 true).2 Vec3.cross_e1_e2_ne_zero⟩

/-! ### C10 -/

/-- C10: on every successfully constructed base shape, reading the
`origin` property raises `NameError` (the body returns the unbound name
`origin`), while the point passed at construction is stored, reachable
only through the private `_origin` field. -/
theorem origin_property_name_error (o : Point3) (d1 d2 : Vec3) (cl : Bool)
    (s : BaseShape) (h : BaseShape.init o d1 d2 cl = .ok s) :
    s.origin = .error (.nameError "origin") ∧ s._origin = o := by
  refine ⟨rfl, ?_⟩
  rw [BaseShape.init_ok h]

/-- Witness for C10 on the default frame. -/
theorem origin_property_name_error_witness :
    BaseShape.origin ⟨p0, e1, e2, Vec3.cross e1 e2, true⟩ =
      .error (.nameError "origin") ∧
    BaseShape._origin ⟨p0, e1, e2, Vec3.cross e1 e2, true⟩ = p0 :=
  origin_property_name_error p0 e1 e2 true _
    (BaseShape.init_eq_ok p0 e1 e2 true Vec3.cross_e1_e2_ne_zero)

/-! ### Sketch helper lemmas -/

/-- A successful `Segment` constructor call stored exactly its two
arguments. -/
theorem Segment.create_ok {a b : Point2} {sg : Segment}
    (h : Segment.create a b = .ok sg) : sg = ⟨a, b⟩ := by
  unfold Segment.create at h
  split at h
  · simp at h
  · simp only [Except.ok.injEq] at h
    exact h.symm

/-- A successful `segment` append stored exactly the new edge at the end
of the entity list, and its two points were distinct. -/
theorem Sketch.segment_ok {s : Sketch} {a b : Point2} {t : Option String}
    {s' : Sketch} (h : s.segment a b t = .ok s') :
    a ≠ b ∧ s' = Sketch.mk (s.entities ++ [.edge ⟨a, b⟩ t]) := by
  unfold Sketch.segment at h
  cases hc : Segment.create a b with
  | error e => rw [hc] at h; simp at h
  | ok sg =>
    rw [hc] at h
    simp only [Except.ok.injEq] at h
    refine ⟨fun hab => ?_, by rw [← h, Segment.create_ok hc]⟩
    unfold Segment.create at hc
    rw [if_pos hab] at hc
    simp at hc

/-- Appending an edge entity appends its segment to the edge list. -/
theorem Sketch.edges_append_edge (l : List SEntity) (sg : Segment)
    (t : Option String) :
    (Sketch.mk (l ++ [.edge sg t])).edges = (Sketch.mk l).edges ++ [sg] := by
  simp [Sketch.edges]

/-- After appending an edge entity, the current point is that edge's end
point. -/
theorem Sketch.currentPoint_append_edge (l : List SEntity) (sg : Segment)
    (t : Option String) :
    (Sketch.mk (l ++ [.edge sg t])).currentPoint = sg.end_ := by
  unfold Sketch.currentPoint
  rw [Sketch.edges_append_edge, List.getLast?_concat]

/-! ### C6 -/

/-- C6 counterexample: with two coincident vertices the `Triangle`
constructor does not construct — its first boundary `Segment` raises the
degenerate-geometry error. -/
theorem triangle_coincident_vertices_fail :
    Triangle.init ⟨0, 0⟩ ⟨0, 0⟩ ⟨1, 0⟩ = .error .degenerateGeometry := by
  unfold Triangle.init Segment.create
  rw [if_pos rfl]

/-- C6 amended: for three vertices with `p1 ≠ p2`, `p2 ≠ p3` and
`p3 ≠ p1`, `Triangle` constructs successfully and its boundary is
exactly the segments `p1→p2`, `p2→p3`, `p3→p1` in that order; if any of
those vertex pairs coincide, construction fails with the
degenerate-geometry error. -/
theorem triangle_construction (p1 p2 p3 : Point2) :
    (p1 ≠ p2 → p2 ≠ p3 → p3 ≠ p1 →
      Triangle.init p1 p2 p3 =
        .ok ⟨p1, p2, p3, [⟨p1, p2⟩, ⟨p2, p3⟩, ⟨p3, p1⟩]⟩) ∧
    (p1 = p2 ∨ p2 = p3 ∨ p3 = p1 →
      Triangle.init p1 p2 p3 = .error .degenerateGeometry) := by
  constructor
  · intro h12 h23 h31
    unfold Triangle.init Segment.create
    rw [if_neg h12, if_neg h23, if_neg h31]
  · rintro (h | h | h)
    · unfold Triangle.init Segment.create
      rw [if_pos h]
    · by_cases h12 : p1 = p2
      · unfold Triangle.init Segment.create
        rw [if_pos h12]
      · unfold Triangle.init Segment.create
        rw [if_neg h12, if_pos h]
    · by_cases h12 : p1 = p2
      · unfold Triangle.init Segment.create
        rw [if_pos h12]
      · by_cases h23 : p2 = p3
        · unfold Triangle.init Segment.create
          rw [if_neg h12, if_pos h23]
        · unfold Triangle.init Segment.create
          rw [if_neg h12, if_neg h23, if_pos h]

/-- Witness for C6's amended claim: a non-degenerate triangle is built
with its three boundary segments in order, and a repeated vertex makes
construction fail. -/
theorem triangle_construction_witness :
    Triangle.init ⟨0, 0⟩ ⟨1, 0⟩ ⟨0, 1⟩ =
      .ok ⟨⟨0, 0⟩, ⟨1, 0⟩, ⟨0, 1⟩,
        [⟨⟨0, 0⟩, ⟨1, 0⟩⟩, ⟨⟨1, 0⟩, ⟨0, 1⟩⟩, ⟨⟨0, 1⟩, ⟨0, 0⟩⟩]⟩ ∧
    Triangle.init ⟨0, 1⟩ ⟨0, 1⟩ ⟨1, 0⟩ = .error .degenerateGeometry :=
  ⟨(triangle_construction ⟨0, 0⟩ ⟨1, 0⟩ ⟨0, 1⟩).1
      (by norm_num [Point2.mk.injEq]) (by norm_num [Point2.mk.injEq])
      (by norm_num [Point2.mk.injEq]),
   (triangle_construction ⟨0, 1⟩ ⟨0, 1⟩ ⟨1, 0⟩).2 (.inl rfl)⟩

/-! ### C7 -/

/-- C7: a failing append (`segment`, `segment_to_point` or `triangle`)
leaves the sketch's edge list and face list exactly as they were: the
error state carried out of the call is the unmodified sketch. -/
theorem failed_append_leaves_sketch_unchanged (s s' : Sketch)
    (a b q1 q2 q3 : Point2) (t : Option String) (e : PyError) :
    (s.segment a b t = .error (e, s') →
      s'.edges = s.edges ∧ s'.faces = s.faces) ∧
    (s.segment_to_point b t = .error (e, s') →
      s'.edges = s.edges ∧ s'.faces = s.faces) ∧
    (s.triangle q1 q2 q3 t = .error (e, s') →
      s'.edges = s.edges ∧ s'.faces = s.faces) := by
  have hseg : ∀ x y : Point2, s.segment x y t = .error (e, s') → s' = s := by
    intro x y h
    unfold Sketch.segment at h
    cases hc : Segment.create x y with
    | error e2 =>
      rw [hc] at h
      simp only [Except.error.injEq, Prod.mk.injEq] at h
      exact h.2.symm
    | ok sg => rw [hc] at h; simp at h
  refine ⟨fun h => ?_, fun h => ?_, fun h => ?_⟩
  · rw [hseg a b h]
    exact ⟨rfl, rfl⟩
  · unfold Sketch.segment_to_point at h
    rw [hseg _ _ h]
    exact ⟨rfl, rfl⟩
  · unfold Sketch.triangle at h
    cases hc : Triangle.init q1 q2 q3 with
    | error e2 =>
      rw [hc] at h
      simp only [Except.error.injEq, Prod.mk.injEq] at h
      rw [← h.2]
      exact ⟨rfl, rfl⟩
    | ok tr => rw [hc] at h; simp at h

/-- Witness for C7: on a sketch already holding one tagged edge, a
degenerate `segment` call fails and the edge and face lists are exactly
the ones from before the call. -/
theorem failed_append_leaves_sketch_unchanged_witness :
    (Sketch.mk [.edge ⟨⟨0, 0⟩, ⟨2, 3⟩⟩ (some "Segment1")]).segment
        ⟨3, 2⟩ ⟨3, 2⟩ none =
      .error (.degenerateGeometry,
        Sketch.mk [.edge ⟨⟨0, 0⟩, ⟨2, 3⟩⟩ (some "Segment1")]) ∧
    ((Sketch.mk [.edge ⟨⟨0, 0⟩, ⟨2, 3⟩⟩ (some "Segment1")]).edges =
        (Sketch.mk [.edge ⟨⟨0, 0⟩, ⟨2, 3⟩⟩ (some "Segment1")]).edges ∧
      (Sketch.mk [.edge ⟨⟨0, 0⟩, ⟨2, 3⟩⟩ (some "Segment1")]).faces =
        (Sketch.mk [.edge ⟨⟨0, 0⟩, ⟨2, 3⟩⟩ (some "Segment1")]).faces) :=
  ⟨by simp [Sketch.segment, Segment.create],
   (failed_append_leaves_sketch_unchanged
      (Sketch.mk [.edge ⟨⟨0, 0⟩, ⟨2, 3⟩⟩ (some "Segment1")])
      (Sketch.mk [.edge ⟨⟨0, 0⟩, ⟨2, 3⟩⟩ (some "Segment1")])
      ⟨3, 2⟩ ⟨3, 2⟩ ⟨0, 0⟩ ⟨0, 0⟩ ⟨0, 0⟩ none .degenerateGeometry).1
     (by simp [Sketch.segment, Segment.create])⟩

/-! ### C8 -/

/-- C8: the current point of a fresh sketch is the origin; after every
successful append of a segment edge it is that edge's end point; and in
the chain `segment_to_point A` then `segment_to_point B` from a fresh
sketch, edge 0 ends at `A` and edge 1 starts at `A`. -/
theorem current_point_tracking (s s' : Sketch) (a q A B : Point2)
    (t : Option String) (s1 s2 : Sketch) :
    Sketch.empty.currentPoint = zeroPoint2 ∧
    (s.segment a q t = .ok s' → s'.currentPoint = q) ∧
    (Sketch.empty.segment_to_point A none = .ok s1 →
      s1.segment_to_point B none = .ok s2 →
      (s2.edges[0]?).map Segment.end_ = some A ∧
      (s2.edges[1]?).map Segment.start = some A) := by
  refine ⟨rfl, fun h => ?_, fun h1 h2 => ?_⟩
  · obtain ⟨-, hs'⟩ := Sketch.segment_ok h
    rw [hs', Sketch.currentPoint_append_edge]
  · unfold Sketch.segment_to_point at h1 h2
    obtain ⟨-, hs1⟩ := Sketch.segment_ok h1
    subst hs1
    obtain ⟨-, hs2⟩ := Sketch.segment_ok h2
    subst hs2
    rw [Sketch.currentPoint_append_edge]
    simp [Sketch.edges, Sketch.empty]

/-- Witness for C8 with the chain `A = (2, 3)`, `B = (3, 3)` of the
test suite. -/
theorem current_point_tracking_witness :
    Sketch.empty.currentPoint = zeroPoint2 ∧
    (Sketch.mk [.edge ⟨⟨5, 5⟩, ⟨2, 3⟩⟩ none]).currentPoint = ⟨2, 3⟩ ∧
    (((Sketch.mk [.edge ⟨⟨0, 0⟩, ⟨2, 3⟩⟩ none,
        .edge ⟨⟨2, 3⟩, ⟨3, 3⟩⟩ none]).edges[0]?).map Segment.end_ =
      some ⟨2, 3⟩ ∧
     ((Sketch.mk [.edge ⟨⟨0, 0⟩, ⟨2, 3⟩⟩ none,
        .edge ⟨⟨2, 3⟩, ⟨3, 3⟩⟩ none]).edges[1]?).map Segment.start =
      some ⟨2, 3⟩) :=
  ⟨(current_point_tracking Sketch.empty Sketch.empty zeroPoint2 zeroPoint2
      zeroPoint2 zeroPoint2 none Sketch.empty Sketch.empty).1,
   (current_point_tracking (Sketch.mk []) (Sketch.mk [.edge ⟨⟨5, 5⟩, ⟨2, 3⟩⟩ none])
      ⟨5, 5⟩ ⟨2, 3⟩ zeroPoint2 zeroPoint2 none Sketch.empty Sketch.empty).2.1
     (by norm_num [Sketch.segment, Segment.create, Point2.mk.injEq]),
   (current_point_tracking Sketch.empty Sketch.empty zeroPoint2 zeroPoint2
      ⟨2, 3⟩ ⟨3, 3⟩ none (Sketch.mk [.edge ⟨⟨0, 0⟩, ⟨2, 3⟩⟩ none])
      (Sketch.mk [.edge ⟨⟨0, 0⟩, ⟨2, 3⟩⟩ none,
        .edge ⟨⟨2, 3⟩, ⟨3, 3⟩⟩ none])).2.2
     (by norm_num [Sketch.segment_to_point, Sketch.segment, Segment.create,
        Sketch.currentPoint, Sketch.edges, Sketch.empty, zeroPoint2,
        Point2.mk.injEq])
     (by norm_num [Sketch.segment_to_point, Sketch.segment, Segment.create,
        Sketch.currentPoint, Sketch.edges, Sketch.empty, zeroPoint2,
        Point2.mk.injEq])⟩

/-! ### C9 -/

/-- C9: `get` returns exactly the entities (edges and faces, mixed)
whose tag equals the argument, as a sublist of the entity list (hence in
insertion order), and returns the empty list — rather than an error —
when no entity carries the tag. -/
theorem get_returns_tagged_in_order (s : Sketch) (t : String) (x : SEntity) :
    (x ∈ s.get t → x.tag = some t) ∧
    (x ∈ s.entities → x.tag = some t → x ∈ s.get t) ∧
    List.Sublist (s.get t) s.entities ∧
    ((∀ y ∈ s.entities, y.tag ≠ some t) → s.get t = []) := by
  refine ⟨fun h => ?_, fun hm ht => ?_, ?_, fun hall => ?_⟩
  · simp only [Sketch.get, List.mem_filter, decide_eq_true_eq] at h
    exact h.2
  · simp only [Sketch.get, List.mem_filter, decide_eq_true_eq]
    exact ⟨hm, ht⟩
  · exact List.filter_sublist s.entities
  · simp only [Sketch.get, List.filter_eq_nil_iff, decide_eq_true_eq]
    exact hall

/-- Witness for C9 on the spec's scenario: three entities tagged
`"t1"`, `"t1"`, `"t2"` (two edges and one face); the first tagged entity
is reported with its tag, and `get "unknown"` is empty. -/
theorem get_returns_tagged_in_order_witness :
    SEntity.tag (.edge ⟨⟨0, 0⟩, ⟨1, 0⟩⟩ (some "t1")) = some "t1" ∧
    (Sketch.mk [.edge ⟨⟨0, 0⟩, ⟨1, 0⟩⟩ (some "t1"),
      .edge ⟨⟨1, 0⟩, ⟨1, 1⟩⟩ (some "t1"),
      .face ⟨⟨0, 0⟩, ⟨1, 0⟩, ⟨0, 1⟩, []⟩ (some "t2")]).get "unknown" = [] :=
  ⟨(get_returns_tagged_in_order
      (Sketch.mk [.edge ⟨⟨0, 0⟩, ⟨1, 0⟩⟩ (some "t1"),
        .edge ⟨⟨1, 0⟩, ⟨1, 1⟩⟩ (some "t1"),
        .face ⟨⟨0, 0⟩, ⟨1, 0⟩, ⟨0, 1⟩, []⟩ (some "t2")]) "t1"
      (.edge ⟨⟨0, 0⟩, ⟨1, 0⟩⟩ (some "t1"))).1
     (by simp [Sketch.get, SEntity.tag]),
   (get_returns_tagged_in_order
      (Sketch.mk [.edge ⟨⟨0, 0⟩, ⟨1, 0⟩⟩ (some "t1"),
        .edge ⟨⟨1, 0⟩, ⟨1, 1⟩⟩ (some "t1"),
        .face ⟨⟨0, 0⟩, ⟨1, 0⟩, ⟨0, 1⟩, []⟩ (some "t2")]) "unknown"
      (.edge ⟨⟨0, 0⟩, ⟨1, 0⟩⟩ (some "t1"))).2.2.2
     (by simp [SEntity.tag])⟩
